import Mathlib

/-!
Verification of the GLPI-synchronization core of the `inventory` repository.

The embedding follows `src/utils.py` (the external-identifier keyed revision,
which `spec.md` §9 designates as authoritative) for the local asset store and
the synchronizer, and `src/glpi_client.py` for the paginated fetch.

Modelling conventions:
* SQLite rows become Lean structures; nullable TEXT columns become
  `Option String`, the `glpi_id INTEGER UNIQUE` column becomes `Option Int`,
  `price REAL` becomes `Int` (no claim involves fractional prices).
* The audit metadata columns `last_updated TIMESTAMP` and `deleted_at`, and
  the raw bytes of `image_blob` (only its length is ever inspected) are not
  modelled; no claim mentions them.
* A remote GLPI record (one row of the synced DataFrame) becomes a structure
  of `Option` fields, `none` standing for an absent key; the `id` field holds
  the already-parsed external identifier, `none` covering both an absent and
  a non-numeric value (`int(row.get('id'))` raising in the source).
* Python truthiness on strings (`if tag:`, `p_date or fallback`) treats both
  `None` and `""` as false; `strTruthy` and `pyOrStr` reproduce this.
* `(False, message)` / `(True, "Success")` returns are kept as `Bool × String`
  exactly as in the source; SQLite `IntegrityError` on the `glpi_id` UNIQUE
  constraint is modelled by the equivalent membership test at the write site.
-/

namespace Inventory

/-- One row of the `assets` table created by `init_and_migrate_db` in
`src/utils.py` (column `id` is `rid` here; `last_updated` and the blob bytes
of `image_blob` are not modelled, only the blob length `image_size`). -/
structure AssetRecord where
  rid : Nat
  asset_tag : Option String
  glpi_id : Option Int
  category : Option String
  model : Option String
  serial_number : Option String
  status : Option String
  assigned_to : Option String
  purchase_date : Option String
  price : Int
  warranty_date : Option String
  vendor : Option String
  last_audit_date : Option String
  department : Option String
  specs : Option String
  image_size : Option Nat
  deriving DecidableEq, Repr

/-- One row of the `recycle_bin` table of `src/utils.py` (`deleted_at` not
modelled). -/
structure RecycleRecord where
  rid : Nat
  asset_tag : Option String
  glpi_id : Option Int
  category : Option String
  model : Option String
  serial_number : Option String
  status : Option String
  assigned_to : Option String
  purchase_date : Option String
  price : Int
  deriving DecidableEq, Repr

/-- The database state relevant to the claims: the active `assets` table, the
`recycle_bin` archive, and the next AUTOINCREMENT value for `assets.id`. -/
structure Store where
  assets : List AssetRecord
  recycle_bin : List RecycleRecord
  next_id : Nat
  deriving DecidableEq, Repr

/-- One remote GLPI record as consumed by `sync_glpi_data` in `src/utils.py`.
`id` is the parsed external identifier (`none` = absent or unparsable). -/
structure RemoteRow where
  id : Option Int
  otherserial : Option String
  name : Option String
  computermodels_id : Option String
  serial : Option String
  computertypes_id : Option String
  states_id : Option String
  users_id : Option String
  manufacturers_id : Option String
  date_mod : Option String
  date_creation : Option String
  deriving DecidableEq, Repr

/-- The `(success_inserts, success_updates, errors)` triple returned by
`sync_glpi_data`. -/
structure SyncCounts where
  inserts : Nat
  updates : Nat
  errors : Nat
  deriving DecidableEq, Repr

/-- Python string truthiness: `None` and `""` are falsy. -/
def strTruthy : Option String → Bool
  | none => false
  | some s => s ≠ ""

/-- Python `a or b` for optional strings (`""` falls through to `b`). -/
def pyOrStr : Option String → Option String → Option String
  | none, b => b
  | some v, b => if v = "" then b else some v

/-- `s.split(" ")[0]` of the source. -/
def headSplit (s : String) : String := (s.splitOn " ").headD s

/-- `str(row.get('computermodels_id', ''))` in `sync_glpi_data`. -/
def rModel (r : RemoteRow) : String := r.computermodels_id.getD ""

/-- `str(row.get('serial', ''))` in `sync_glpi_data`. -/
def rSerial (r : RemoteRow) : String := r.serial.getD ""

/-- `str(row.get('computertypes_id', 'Other'))` in `sync_glpi_data`. -/
def rCategory (r : RemoteRow) : String := r.computertypes_id.getD "Other"

/-- `str(row.get('states_id', 'In Stock'))` in `sync_glpi_data`. -/
def rStatus (r : RemoteRow) : String := r.states_id.getD "In Stock"

/-- `str(row.get('users_id', ''))` in `sync_glpi_data`. -/
def rAssigned (r : RemoteRow) : String := r.users_id.getD ""

/-- `str(row.get('manufacturers_id', ''))` in `sync_glpi_data`. -/
def rVendor (r : RemoteRow) : String := r.manufacturers_id.getD ""

/-- `p_date = row.get('date_mod', row.get('date_creation'))` followed by
`p_date.split(" ")[0]` when `p_date` is a truthy string, else `None`. -/
def pDate (r : RemoteRow) : Option String :=
  match r.date_mod with
  | some s => if s = "" then none else some (headSplit s)
  | none =>
    match r.date_creation with
    | some s => if s = "" then none else some (headSplit s)
    | none => none

/-- The `UPDATE assets SET ... WHERE glpi_id=?` of `sync_glpi_data`
(src/utils.py lines 753-756), applied to one row of the table. `fb` is
`existing_by_id[8]`, the purchase date of the fetched matching row, used as
fallback via Python `or`. -/
def syncUpdateRecord (row : RemoteRow) (g : Int) (fb : Option String)
    (r : AssetRecord) : AssetRecord :=
  if r.glpi_id = some g then
    { r with
      category := some (rCategory row)
      model := some (rModel row)
      serial_number := some (rSerial row)
      status := some (rStatus row)
      assigned_to := some (rAssigned row)
      purchase_date := pyOrStr (pDate row) fb
      vendor := some (rVendor row) }
  else r

/-- The row built by the `INSERT INTO assets ...` of `sync_glpi_data`
(src/utils.py lines 763-766): no tag, price 0, department "Common", empty
specs, `last_audit_date` stamped with today's date. -/
def syncInsertRecord (row : RemoteRow) (g : Int) (today : String)
    (rid : Nat) : AssetRecord :=
  { rid := rid
    asset_tag := none
    glpi_id := some g
    category := some (rCategory row)
    model := some (rModel row)
    serial_number := some (rSerial row)
    status := some (rStatus row)
    assigned_to := some (rAssigned row)
    purchase_date := pDate row
    price := 0
    warranty_date := none
    vendor := some (rVendor row)
    last_audit_date := some today
    department := some "Common"
    specs := some ""
    image_size := none }

/-- `SELECT * FROM assets WHERE glpi_id=?` + `fetchone()`. -/
def findByGlpi (s : Store) (g : Int) : Option AssetRecord :=
  s.assets.find? (fun r => r.glpi_id = some g)

/-- State effect of one iteration of the `sync_glpi_data` loop in
`src/utils.py`: skip when the external id is absent/unparsable, otherwise a
restricted update of the matching row, or an insert of a fresh row. -/
def syncStepState (today : String) (s : Store) (row : RemoteRow) : Store :=
  match row.id with
  | none => s
  | some g =>
    match findByGlpi s g with
    | some ex =>
      { s with assets := s.assets.map (syncUpdateRecord row g ex.purchase_date) }
    | none =>
      { s with
        assets := s.assets ++ [syncInsertRecord row g today s.next_id]
        next_id := s.next_id + 1 }

/-- Which counter one loop iteration of `sync_glpi_data` bumps. The `errors`
counter belongs to the two `except` clauses; for the schema of
`init_and_migrate_db` the guarded insert and the update cannot violate a
constraint, so no iteration classifies as an error. -/
inductive SyncKind where
  | skip
  | ins
  | upd
  deriving DecidableEq, Repr

/-- Classification of one loop iteration of `sync_glpi_data`. -/
def syncClassify (s : Store) (row : RemoteRow) : SyncKind :=
  match row.id with
  | none => .skip
  | some g =>
    match findByGlpi s g with
    | some _ => .upd
    | none => .ins

/-- Counter increments of `sync_glpi_data` per iteration. -/
def bumpCount (c : SyncCounts) : SyncKind → SyncCounts
  | .skip => c
  | .ins => { c with inserts := c.inserts + 1 }
  | .upd => { c with updates := c.updates + 1 }

/-- One full iteration (state + counters) of the `sync_glpi_data` loop. -/
def syncStep (today : String) (p : Store × SyncCounts) (row : RemoteRow) :
    Store × SyncCounts :=
  (syncStepState today p.1 row, bumpCount p.2 (syncClassify p.1 row))

/-- `sync_glpi_data` of `src/utils.py`: fold the per-record reconciliation
over the remote batch, returning the final store and the
`(inserts, updates, errors)` triple. `today` is `datetime.now().date()`. -/
def sync_glpi_data (today : String) (s : Store) (b : List RemoteRow) :
    Store × SyncCounts :=
  b.foldl (syncStep today) (s, ⟨0, 0, 0⟩)

/-- The state trajectory of `sync_glpi_data` (counters dropped). -/
def syncFoldState (today : String) (s : Store) (b : List RemoteRow) : Store :=
  b.foldl (syncStepState today) s

/-- `str.strip()`: drop leading and trailing whitespace (implemented on the
character list so that it evaluates by kernel reduction). -/
def pyStrip (s : String) : String :=
  String.mk (((s.data.dropWhile Char.isWhitespace).reverse.dropWhile
    Char.isWhitespace).reverse)

/-- `if not model or not model.strip()` of `add_asset`/`update_asset`. -/
def modelFalsy : Option String → Bool
  | none => true
  | some m => pyStrip m = ""

/-- The inputs of `add_asset` in `src/utils.py` (the uploaded image is
represented by its byte length, the only thing the code inspects). -/
structure AddInput where
  tag : Option String
  cat : Option String
  model : Option String
  serial : Option String
  status : Option String
  assigned : Option String
  p_date : Option String
  price : Int
  warranty : Option String
  vendor : Option String
  dept : Option String
  img_size : Option Nat
  specs : Option String
  glpi_id : Option Int
  deriving DecidableEq, Repr

/-- The row built by the `INSERT INTO assets ...` of `add_asset`
(src/utils.py lines 543-547): `last_audit_date` stamped with today's date. -/
def addInsertRecord (a : AddInput) (today : String) (rid : Nat) : AssetRecord :=
  { rid := rid
    asset_tag := a.tag
    glpi_id := a.glpi_id
    category := a.cat
    model := a.model
    serial_number := a.serial
    status := a.status
    assigned_to := a.assigned
    purchase_date := a.p_date
    price := a.price
    warranty_date := a.warranty
    vendor := a.vendor
    last_audit_date := some today
    department := a.dept
    specs := a.specs
    image_size := a.img_size }

/-- `len(img_data) > 5 * 1024 * 1024` in `add_asset`. -/
def imgTooLarge : Option Nat → Bool
  | none => false
  | some n => 5 * 1024 * 1024 < n

/-- Whether an `INSERT INTO assets` carrying this `glpi_id` value fires the
UNIQUE constraint on `assets.glpi_id` (SQLite `IntegrityError`); inserting
NULL never conflicts. -/
def glpiConflict (go : Option Int) (s : Store) : Bool :=
  match go with
  | none => false
  | some g => s.assets.any (fun r => r.glpi_id = some g)

/-- `add_asset` of `src/utils.py`: validation, optional image-size check,
explicit duplicate-tag check (skipped for a falsy tag), then the insert,
whose only failure mode for this schema is the UNIQUE constraint on
`glpi_id` (SQLite `IntegrityError`). Returns the `(ok, message)` pair of the
source together with the resulting store. -/
def add_asset (a : AddInput) (today : String) (s : Store) :
    (Bool × String) × Store :=
  if modelFalsy a.model then ((false, "Model cannot be empty"), s)
  else if a.price < 0 then ((false, "Price cannot be negative"), s)
  else if imgTooLarge a.img_size then
    ((false, "Image file is too large (max 5MB)"), s)
  else if strTruthy a.tag && s.assets.any (fun r => r.asset_tag = a.tag) then
    ((false, "Asset Tag already exists."), s)
  else if glpiConflict a.glpi_id s then
    ((false, "Database Integrity Error: UNIQUE constraint failed: assets.glpi_id"), s)
  else
    ((true, "Success"),
      { s with
        assets := s.assets ++ [addInsertRecord a today s.next_id]
        next_id := s.next_id + 1 })

/-- The inputs of `update_asset` in `src/utils.py`. -/
structure UpdInput where
  new_tag : Option String
  cat : Option String
  model : Option String
  serial : Option String
  status : Option String
  assigned : Option String
  p_date : Option String
  price : Int
  warranty : Option String
  vendor : Option String
  dept : Option String
  specs : Option String
  glpi_id : Option Int
  original_tag : Option String
  deriving DecidableEq, Repr

/-- The `UPDATE assets SET ... WHERE glpi_id=?` of `update_asset`
(priority 1, src/utils.py lines 582-585): rewrites every field except
`glpi_id` itself on each matching row. -/
def updByGlpiRecord (u : UpdInput) (g : Int) (r : AssetRecord) : AssetRecord :=
  if r.glpi_id = some g then
    { r with
      asset_tag := u.new_tag
      category := u.cat
      model := u.model
      serial_number := u.serial
      status := u.status
      assigned_to := u.assigned
      purchase_date := u.p_date
      price := u.price
      warranty_date := u.warranty
      vendor := u.vendor
      department := u.dept
      specs := u.specs }
  else r

/-- The `UPDATE assets SET ..., glpi_id=? WHERE asset_tag=?` of
`update_asset` (priority 2, src/utils.py lines 589-592). This legacy branch
only runs when the `glpi_id` argument is `None`, so it always writes NULL
into the `glpi_id` column of each matching row. -/
def updByTagRecord (u : UpdInput) (ot : String) (r : AssetRecord) : AssetRecord :=
  if r.asset_tag = some ot then
    { r with
      asset_tag := u.new_tag
      category := u.cat
      model := u.model
      serial_number := u.serial
      status := u.status
      assigned_to := u.assigned
      purchase_date := u.p_date
      price := u.price
      warranty_date := u.warranty
      vendor := u.vendor
      department := u.dept
      specs := u.specs
      glpi_id := none }
  else r

/-- `update_asset` of `src/utils.py`: validation, then update keyed on
`glpi_id` when given, else on the original tag (legacy), else failure. The
commented-out duplicate-tag check of the source is a no-op (`pass`). -/
def update_asset (u : UpdInput) (s : Store) : (Bool × String) × Store :=
  if modelFalsy u.model then ((false, "Model cannot be empty"), s)
  else if u.price < 0 then ((false, "Invalid Price"), s)
  else
    match u.glpi_id with
    | some g =>
      ((true, "Success"), { s with assets := s.assets.map (updByGlpiRecord u g) })
    | none =>
      match u.original_tag with
      | some ot =>
        if ot = "" then
          ((false, "Cannot identify asset to update (Missing both GLPI ID and Original Tag)"), s)
        else
          ((true, "Success"), { s with assets := s.assets.map (updByTagRecord u ot) })
      | none =>
        ((false, "Cannot identify asset to update (Missing both GLPI ID and Original Tag)"), s)

/-- The positional copy `INSERT INTO assets (asset_tag, glpi_id, category,
model, serial_number, status, assigned_to, purchase_date, price)` performed
by `restore_asset` (src/utils.py lines 709-711); all other columns take
their defaults (NULL). -/
def restoreToAsset (row : RecycleRecord) (rid : Nat) : AssetRecord :=
  { rid := rid
    asset_tag := row.asset_tag
    glpi_id := row.glpi_id
    category := row.category
    model := row.model
    serial_number := row.serial_number
    status := row.status
    assigned_to := row.assigned_to
    purchase_date := row.purchase_date
    price := row.price
    warranty_date := none
    vendor := none
    last_audit_date := none
    department := none
    specs := none
    image_size := none }

/-- `restore_asset` of `src/utils.py`: fetch the first recycle-bin row with
the given tag; re-insert it into `assets` (a SQLite `IntegrityError` on the
`glpi_id` UNIQUE constraint is caught and reported with nothing committed)
and delete every recycle-bin row carrying that tag. There is no tag
uniqueness check and no UNIQUE constraint on `assets.asset_tag` in this
schema. -/
def restore_asset (tag : String) (s : Store) : (Bool × String) × Store :=
  match s.recycle_bin.find? (fun r => r.asset_tag = some tag) with
  | none => ((false, "Not found in bin"), s)
  | some row =>
    if glpiConflict row.glpi_id s then
      ((false, "UNIQUE constraint failed: assets.glpi_id"), s)
    else
      ((true, "Success"),
        { assets := s.assets ++ [restoreToAsset row s.next_id]
          recycle_bin := s.recycle_bin.filter (fun r => ¬ r.asset_tag = some tag)
          next_id := s.next_id + 1 })

/-!
Pagination of `GlpiApi.get_computers` (src/glpi_client.py). The remote
server holds `n` records, identified here by their zero-based indices; a
request for the inclusive range `s..s+p-1` returns the indices in
`[s, min (s+p) n)`, and a request starting at or beyond `n` is answered with
the `ERROR_RANGE_EXCEED_TOTAL` sentinel (equivalently, an empty page — the
code breaks either way). Each function returns the concatenated records and
the number of page requests issued; the initial `range=0-0` probe that only
reads the `Content-Range` header is not counted as a page request.
-/

/-- The page of records served for the inclusive range `st..st+p-1`. -/
def pageData (n st p : Nat) : List Nat := List.range' st (min (st + p) n - st)

/-- The count-based loop `for range_start in range(st, total, page_size)`:
one request per iteration, extending `computers` with each non-empty page
(`if data:`). As the loop advances `range_start` by `page_size ≥ 1` per
iteration and runs only while `range_start < total`, a fuel of `n + 1` is
never exhausted (`countLoop_spec`); the recursion is on fuel so that the
function evaluates by kernel reduction. -/
def countLoop (n p : Nat) : Nat → Nat → List Nat × Nat
  | 0, _ => ([], 0)
  | fuel + 1, st =>
    if st < n then
      let data := pageData n st p
      let rest := countLoop n p fuel (st + p)
      ((if data.isEmpty then rest.1 else data ++ rest.1), rest.2 + 1)
    else ([], 0)

/-- The count-based strategy of `get_computers` for a server of `n` records
and page size `p`. -/
def countPages (n p : Nat) : List Nat × Nat := countLoop n p (n + 1) 0

/-- The fallback `while True` loop of `get_computers`: request the page at
`st`; a request past the total is answered with `ERROR_RANGE_EXCEED_TOTAL`
(or an empty page) and breaks; a short page breaks after being consumed;
otherwise continue at `st + p`. Fuel as in `countLoop`. -/
def fallbackLoop (n p : Nat) : Nat → Nat → List Nat × Nat
  | 0, _ => ([], 0)
  | fuel + 1, st =>
    if st < n then
      let data := pageData n st p
      if data.length < p then (data, 1)
      else
        let rest := fallbackLoop n p fuel (st + p)
        (data ++ rest.1, rest.2 + 1)
    else ([], 1)

/-- The fallback sequential strategy of `get_computers`. -/
def fallbackPages (n p : Nat) : List Nat × Nat := fallbackLoop n p (n + 1) 0

/-- `get_computers`: the count-based strategy when the `Content-Range`
header yielded a total, the sequential fallback otherwise. -/
def get_computers (headerTotal : Bool) (n p : Nat) : List Nat × Nat :=
  if headerTotal then countPages n p else fallbackPages n p

/-- Componentwise sum of two sync count triples. -/
def cadd (a b : SyncCounts) : SyncCounts :=
  ⟨a.inserts + b.inserts, a.updates + b.updates, a.errors + b.errors⟩

/-- The UNIQUE constraint on `assets.glpi_id`: any two distinct rows of the
active table differ in their external identifier unless it is NULL. -/
def GlpiUnique (s : Store) : Prop :=
  s.assets.Pairwise (fun a b => a.glpi_id = none ∨ ¬ a.glpi_id = b.glpi_id)

/-- The rows of `l'` arise from the rows of `l` (in order, possibly followed
by new rows) without any change to their `glpi_id` column. -/
def glpiPointwise (l l' : List AssetRecord) : Prop :=
  l.length ≤ l'.length ∧
    ∀ i (h : i < l.length) (h' : i < l'.length),
      (l'.get ⟨i, h'⟩).glpi_id = (l.get ⟨i, h⟩).glpi_id

/-- The per-record frame of a sync update (claim C1): locally-owned columns
and identity columns of a row are untouched, rows with a different external
identifier are untouched entirely, and matching rows receive exactly the
mapped remote values with the purchase-date fallback `fb`. -/
def syncUpdateFrame (row : RemoteRow) (g : Int) (fb : Option String)
    (old new : AssetRecord) : Prop :=
  new.asset_tag = old.asset_tag ∧
  new.price = old.price ∧
  new.warranty_date = old.warranty_date ∧
  new.department = old.department ∧
  new.specs = old.specs ∧
  new.rid = old.rid ∧
  new.glpi_id = old.glpi_id ∧
  new.last_audit_date = old.last_audit_date ∧
  new.image_size = old.image_size ∧
  (¬ old.glpi_id = some g → new = old) ∧
  (old.glpi_id = some g →
    new.category = some (rCategory row) ∧
    new.model = some (rModel row) ∧
    new.serial_number = some (rSerial row) ∧
    new.status = some (rStatus row) ∧
    new.assigned_to = some (rAssigned row) ∧
    new.vendor = some (rVendor row) ∧
    new.purchase_date = pyOrStr (pDate row) fb)

/-! ### Fixtures for witnesses and counterexamples -/

/-- The empty database right after `init_and_migrate_db`. -/
def emptyStore : Store := ⟨[], [], 1⟩

/-- A remote record with every key absent; fixtures override fields. -/
def baseRow : RemoteRow :=
  ⟨none, none, none, none, none, none, none, none, none, none, none⟩

/-- A blank asset row; fixtures override fields. -/
def baseAsset : AssetRecord :=
  ⟨1, none, none, none, none, none, none, none, none, 0, none, none, none,
    none, none, none⟩

/-- A blank recycle-bin row; fixtures override fields. -/
def baseRecycle : RecycleRecord :=
  ⟨1, none, none, none, none, none, none, none, none, 0⟩

/-- A blank `add_asset` input; fixtures override fields. -/
def baseAdd : AddInput :=
  ⟨none, none, some "X", none, none, none, none, 0, none, none, none, none,
    none, none⟩

/-- A blank `update_asset` input; fixtures override fields. -/
def baseUpd : UpdInput :=
  ⟨none, none, some "X", none, none, none, none, 0, none, none, none, none,
    none, none⟩

/-- Spec scenario fixture: remote record id 7, model "ThinkPad", status
"In Stock". -/
def wRow7 : RemoteRow :=
  { baseRow with
    id := some 7
    computermodels_id := some "ThinkPad"
    states_id := some "In Stock" }

/-- Spec scenario fixture: the same external id 7 seen again with model
"ThinkPad X1" and status "In Use". -/
def wRow7b : RemoteRow :=
  { baseRow with
    id := some 7
    computermodels_id := some "ThinkPad X1"
    states_id := some "In Use" }

/-- Spec scenario fixture: a locally curated active record for external id 7
with price 500 and department "Finance". -/
def wAssetFin : AssetRecord :=
  { baseAsset with
    glpi_id := some 7
    asset_tag := some "IT-001"
    price := 500
    department := some "Finance"
    specs := some "i7/16GB" }

/-- Spec scenario fixture: a store holding just `wAssetFin`. -/
def wStoreFin : Store := ⟨[wAssetFin], [], 2⟩

/-! ### Pagination lemmas -/

theorem pageData_eq (n st p : Nat) (hst : st + p ≤ n) :
    pageData n st p = List.range' st p := by
  unfold pageData
  congr 1
  omega

theorem pageData_eq_of_ge (n st p : Nat) (hst : n ≤ st + p) :
    pageData n st p = List.range' st (n - st) := by
  unfold pageData
  congr 1
  omega

theorem range'_append_chunk (st p k : Nat) :
    List.range' st p ++ List.range' (st + p) k = List.range' st (p + k) := by
  rw [List.range'_append_1, Nat.add_comm]

theorem pageData_ne_nil (n st p : Nat) (hst : st < n) (hp : 0 < p) :
    (pageData n st p).isEmpty = false := by
  have hlen : 0 < (pageData n st p).length := by
    unfold pageData
    rw [List.length_range']
    omega
  cases hpd : pageData n st p with
  | nil => rw [hpd] at hlen; simp at hlen
  | cons a l => simp

theorem countLoop_spec (n p : Nat) (hp : 0 < p) :
    ∀ fuel st, n - st < fuel →
      countLoop n p fuel st = (List.range' st (n - st), ((n - st) + p - 1) / p) := by
  intro fuel
  induction fuel with
  | zero => intro st h; omega
  | succ fuel ih =>
    intro st h
    by_cases hst : st < n
    · have hne := pageData_ne_nil n st p hst hp
      rw [countLoop]
      simp only [hst, if_true, hne, Bool.false_eq_true, if_false,
        ih (st + p) (by omega), Prod.mk.injEq]
      by_cases hle : st + p ≤ n
      · rw [pageData_eq n st p hle]
        refine ⟨?_, ?_⟩
        · rw [range'_append_chunk st p (n - (st + p))]
          congr 1
          omega
        · by_cases hpm : p < n - st
          · have harg : (n - st) + p - 1 = ((n - (st + p)) + p - 1) + p := by omega
            rw [harg, Nat.add_div_right _ hp]
          · have h1 : n - (st + p) = 0 := by omega
            rw [h1]
            have h2 : (0 + p - 1) / p = 0 := Nat.div_eq_of_lt (by omega)
            have h3 : ((n - st) + p - 1) / p = 1 :=
              Nat.div_eq_of_lt_le (by omega) (by omega)
            omega
      · rw [pageData_eq_of_ge n st p (by omega)]
        have h0 : n - (st + p) = 0 := by omega
        rw [h0]
        refine ⟨by simp, ?_⟩
        · have h2 : (0 + p - 1) / p = 0 := Nat.div_eq_of_lt (by omega)
          have h3 : ((n - st) + p - 1) / p = 1 :=
            Nat.div_eq_of_lt_le (by omega) (by omega)
          omega
    · have h0 : n - st = 0 := by omega
      rw [countLoop]
      simp only [hst, if_false, h0, Prod.mk.injEq]
      exact ⟨by simp, (Nat.div_eq_of_lt (by omega)).symm⟩

theorem fallbackLoop_spec (n p : Nat) (hp : 0 < p) :
    ∀ fuel st, n - st < fuel →
      fallbackLoop n p fuel st = (List.range' st (n - st), (n - st) / p + 1) := by
  intro fuel
  induction fuel with
  | zero => intro st h; omega
  | succ fuel ih =>
    intro st h
    by_cases hst : st < n
    · rw [fallbackLoop]
      simp only [hst, if_true]
      by_cases hle : st + p ≤ n
      · have hlen : (pageData n st p).length = p := by
          rw [pageData_eq n st p hle]
          simp
        rw [hlen, if_neg (by omega), ih (st + p) (by omega)]
        rw [pageData_eq n st p hle]
        simp only [Prod.mk.injEq]
        refine ⟨?_, ?_⟩
        · rw [range'_append_chunk st p (n - (st + p))]
          congr 1
          omega
        · have hdiv := Nat.div_eq_sub_div hp (show p ≤ n - st by omega)
          have harg : n - st - p = n - (st + p) := by omega
          rw [harg] at hdiv
          omega
      · have hlen : (pageData n st p).length = n - st := by
          rw [pageData_eq_of_ge n st p (by omega)]
          simp
        rw [hlen, if_pos (by omega)]
        rw [pageData_eq_of_ge n st p (by omega)]
        have hz : (n - st) / p = 0 := Nat.div_eq_of_lt (by omega)
        rw [hz]
    · have h0 : n - st = 0 := by omega
      rw [fallbackLoop]
      simp only [hst, if_false, h0, Prod.mk.injEq]
      exact ⟨by simp, by rw [Nat.zero_div]⟩

/-- C8, counterexample: with 1 remote record and page size 1 the fallback
sequential strategy of `get_computers` issues 2 page requests (the full page
followed by the probe answered with the range-exceeds-total sentinel), not
ceil(1/1) = 1 as the claim states for both strategies. -/
theorem fallback_request_count_counterexample :
    (get_computers false 1 1).2 = 2 ∧ (1 + 1 - 1) / 1 = 1 ∧
      ¬ (get_computers false 1 1).2 = (1 + 1 - 1) / 1 := by
  decide

/-- C8, amended: for a remote total of `n` records and page size `p > 0`,
both strategies of `get_computers` return exactly the `n` records `0..n-1`
in order, with no duplicates and no gaps; the count-based strategy issues
ceil(n/p) page requests, while the fallback sequential strategy issues
`n / p + 1` page requests (that is, ceil(n/p) when `p` does not divide `n`,
and one extra sentinel-answered probe when it does). -/
theorem pagination_completeness_amended (n p : Nat) (hp : 0 < p) :
    (countPages n p).1 = List.range n ∧
    (countPages n p).2 = (n + p - 1) / p ∧
    (fallbackPages n p).1 = List.range n ∧
    (fallbackPages n p).2 = n / p + 1 ∧
    (List.range n).length = n ∧ (List.range n).Nodup := by
  have hc := countLoop_spec n p hp (n + 1) 0 (by omega)
  have hf := fallbackLoop_spec n p hp (n + 1) 0 (by omega)
  unfold countPages fallbackPages
  rw [hc, hf]
  refine ⟨?_, by simp, ?_, by simp, by simp, List.nodup_range n⟩
  · rw [List.range_eq_range']
    simp
  · rw [List.range_eq_range']
    simp

/-- Witness for `pagination_completeness_amended` at `n = 5`, `p = 2`. -/
theorem pagination_completeness_amended_witness :
    0 < 2 ∧
      ((countPages 5 2).1 = List.range 5 ∧
       (countPages 5 2).2 = (5 + 2 - 1) / 2 ∧
       (fallbackPages 5 2).1 = List.range 5 ∧
       (fallbackPages 5 2).2 = 5 / 2 + 1 ∧
       (List.range 5).length = 5 ∧ (List.range 5).Nodup) :=
  ⟨by decide, pagination_completeness_amended 5 2 (by decide)⟩

/-! ### Basic lemmas about the synchronizer -/

theorem syncUpdateRecord_glpi (row : RemoteRow) (g : Int) (fb : Option String)
    (r : AssetRecord) : (syncUpdateRecord row g fb r).glpi_id = r.glpi_id := by
  unfold syncUpdateRecord
  by_cases h : r.glpi_id = some g <;> simp [h]

theorem syncStepState_of_none (t : String) (s : Store) (row : RemoteRow)
    (h : row.id = none) : syncStepState t s row = s := by
  unfold syncStepState
  rw [h]

theorem syncStepState_of_update (t : String) (s : Store) (row : RemoteRow)
    (g : Int) (ex : AssetRecord) (hid : row.id = some g)
    (hex : findByGlpi s g = some ex) :
    syncStepState t s row
      = { s with assets := s.assets.map (syncUpdateRecord row g ex.purchase_date) } := by
  simp only [syncStepState, hid, hex]

theorem syncStepState_of_insert (t : String) (s : Store) (row : RemoteRow)
    (g : Int) (hid : row.id = some g) (hex : findByGlpi s g = none) :
    syncStepState t s row
      = { s with
          assets := s.assets ++ [syncInsertRecord row g t s.next_id]
          next_id := s.next_id + 1 } := by
  simp only [syncStepState, hid, hex]

theorem find?_glpi_map (f : AssetRecord → AssetRecord)
    (hf : ∀ r, (f r).glpi_id = r.glpi_id) (l : List AssetRecord) (g : Int) :
    (l.map f).find? (fun r => r.glpi_id = some g)
      = (l.find? (fun r => r.glpi_id = some g)).map f := by
  rw [List.find?_map]
  have hpf : ((fun r => decide (r.glpi_id = some g)) ∘ f)
      = (fun r : AssetRecord => decide (r.glpi_id = some g)) := by
    funext r
    simp [Function.comp, hf]
  rw [hpf]

theorem findByGlpi_map (s : Store) (f : AssetRecord → AssetRecord)
    (hf : ∀ r, (f r).glpi_id = r.glpi_id) (g : Int) :
    findByGlpi { s with assets := s.assets.map f } g
      = (findByGlpi s g).map f := by
  unfold findByGlpi
  exact find?_glpi_map f hf s.assets g

theorem findByGlpi_isSome_stepState (t : String) (s : Store) (row : RemoteRow)
    (g : Int) (h : (findByGlpi s g).isSome = true) :
    (findByGlpi (syncStepState t s row) g).isSome = true := by
  match hid : row.id with
  | none => rw [syncStepState_of_none t s row hid]; exact h
  | some gh =>
    match hex : findByGlpi s gh with
    | some ex =>
      rw [syncStepState_of_update t s row gh ex hid hex]
      rw [findByGlpi_map s _ (fun r => syncUpdateRecord_glpi row gh ex.purchase_date r) g]
      simp only [Option.isSome_map']
      exact h
    | none =>
      rw [syncStepState_of_insert t s row gh hid hex]
      unfold findByGlpi at *
      simp only [List.find?_append]
      cases hfind : s.assets.find? (fun r => r.glpi_id = some g) with
      | none => rw [hfind] at h; simp at h
      | some a => rfl

theorem findByGlpi_stepState_self (t : String) (s : Store) (row : RemoteRow)
    (g : Int) (hid : row.id = some g) :
    (findByGlpi (syncStepState t s row) g).isSome = true := by
  match hex : findByGlpi s g with
  | some ex =>
    exact findByGlpi_isSome_stepState t s row g (by rw [hex]; rfl)
  | none =>
    rw [syncStepState_of_insert t s row g hid hex]
    unfold findByGlpi at *
    simp only [List.find?_append, hex, Option.none_or]
    simp [syncInsertRecord]

/-- C4: a remote record whose external identifier is absent or unparsable is
silently skipped by `sync_glpi_data` — the state is untouched, none of the
three counters moves, and the remaining batch is processed exactly as if the
record were not there. -/
theorem sync_skips_unparsable_id (t : String) (s : Store) (row : RemoteRow)
    (rest : List RemoteRow) (h : row.id = none) :
    sync_glpi_data t s (row :: rest) = sync_glpi_data t s rest := by
  unfold sync_glpi_data
  simp only [List.foldl_cons]
  congr 1
  unfold syncStep
  simp [syncStepState_of_none t s row h, syncClassify, h, bumpCount]

/-- Witness for `sync_skips_unparsable_id`: a remote record carrying only a
name is skipped and the rest of the batch still syncs. -/
theorem sync_skips_unparsable_id_witness :
    ({ baseRow with name := some "pc-9" } : RemoteRow).id = none ∧
      sync_glpi_data "2024-01-01" emptyStore
          [{ baseRow with name := some "pc-9" }, { baseRow with id := some 7 }]
        = sync_glpi_data "2024-01-01" emptyStore [{ baseRow with id := some 7 }] :=
  ⟨by decide,
    sync_skips_unparsable_id "2024-01-01" emptyStore
      { baseRow with name := some "pc-9" } [{ baseRow with id := some 7 }]
      (by decide)⟩

/-- C3: a remote record whose external identifier matches no active record
is inserted by `sync_glpi_data` as a fresh row carrying the mapped
remote-owned fields, with no tag, price 0, department "Common" and empty
specs, and the iteration counts exactly one insert. -/
theorem sync_insert_new_record (t : String) (s : Store) (row : RemoteRow)
    (g : Int) (hid : row.id = some g) (hex : findByGlpi s g = none) :
    (∀ c, syncStep t (s, c) row
        = ({ s with
              assets := s.assets ++ [syncInsertRecord row g t s.next_id]
              next_id := s.next_id + 1 },
           { c with inserts := c.inserts + 1 })) ∧
    (syncInsertRecord row g t s.next_id).asset_tag = none ∧
    (syncInsertRecord row g t s.next_id).price = 0 ∧
    (syncInsertRecord row g t s.next_id).department = some "Common" ∧
    (syncInsertRecord row g t s.next_id).specs = some "" ∧
    (syncInsertRecord row g t s.next_id).glpi_id = some g ∧
    (syncInsertRecord row g t s.next_id).category = some (rCategory row) ∧
    (syncInsertRecord row g t s.next_id).model = some (rModel row) ∧
    (syncInsertRecord row g t s.next_id).serial_number = some (rSerial row) ∧
    (syncInsertRecord row g t s.next_id).status = some (rStatus row) ∧
    (syncInsertRecord row g t s.next_id).assigned_to = some (rAssigned row) ∧
    (syncInsertRecord row g t s.next_id).vendor = some (rVendor row) ∧
    (syncInsertRecord row g t s.next_id).purchase_date = pDate row ∧
    (syncInsertRecord row g t s.next_id).rid = s.next_id := by
  refine ⟨fun c => ?_, ?_, ?_, ?_, ?_, ?_, ?_, ?_, ?_, ?_, ?_, ?_, ?_, ?_⟩
  · unfold syncStep
    rw [syncStepState_of_insert t s row g hid hex]
    simp [syncClassify, hid, hex, bumpCount]
  all_goals simp [syncInsertRecord]

/-- Witness for `sync_insert_new_record`: the spec scenario — remote record
with id 7, model "ThinkPad", status "In Stock" against an empty store yields
one insert of a row with no tag, price 0 and department "Common". -/
theorem sync_insert_new_record_witness :
    wRow7.id = some 7 ∧ findByGlpi emptyStore 7 = none ∧
    syncStep "2024-01-01" (emptyStore, ⟨0, 0, 0⟩) wRow7
      = ({ emptyStore with
            assets := emptyStore.assets
              ++ [syncInsertRecord wRow7 7 "2024-01-01" emptyStore.next_id]
            next_id := emptyStore.next_id + 1 },
         ⟨0 + 1, 0, 0⟩) ∧
    (syncInsertRecord wRow7 7 "2024-01-01" emptyStore.next_id).asset_tag = none ∧
    (syncInsertRecord wRow7 7 "2024-01-01" emptyStore.next_id).price = 0 ∧
    (syncInsertRecord wRow7 7 "2024-01-01" emptyStore.next_id).department
      = some "Common" ∧
    (syncInsertRecord wRow7 7 "2024-01-01" emptyStore.next_id).glpi_id = some 7 :=
  have T := sync_insert_new_record "2024-01-01" emptyStore wRow7 7
    (by decide) (by decide)
  ⟨by decide, by decide, T.1 ⟨0, 0, 0⟩, T.2.1, T.2.2.1, T.2.2.2.1,
    T.2.2.2.2.2.1⟩

/-- C1: when the remote external identifier matches an existing active
record, the sync iteration rewrites only the remote-owned columns of the
matching rows (category, model, serial, status, assignee, vendor, purchase
date with the existing purchase date as fallback), leaves every row's tag,
price, warranty date, department and specs exactly as they were, leaves
non-matching rows entirely unchanged, keeps the row count, archive and
AUTOINCREMENT state, and counts exactly one update — regardless of the
remote payload. -/
theorem sync_update_preserves_local_fields (t : String) (s : Store)
    (row : RemoteRow) (g : Int) (ex : AssetRecord) (hid : row.id = some g)
    (hex : findByGlpi s g = some ex) :
    (syncStepState t s row).assets.length = s.assets.length ∧
    (syncStepState t s row).recycle_bin = s.recycle_bin ∧
    (syncStepState t s row).next_id = s.next_id ∧
    List.Forall₂ (syncUpdateFrame row g ex.purchase_date) s.assets
      (syncStepState t s row).assets ∧
    (∀ c, syncStep t (s, c) row
        = (syncStepState t s row, { c with updates := c.updates + 1 })) := by
  rw [syncStepState_of_update t s row g ex hid hex]
  refine ⟨by simp, rfl, rfl, ?_, ?_⟩
  · simp only [List.forall₂_map_right_iff]
    rw [List.forall₂_same]
    intro r _
    by_cases hr : r.glpi_id = some g
    · simp [syncUpdateFrame, syncUpdateRecord, hr]
    · simp [syncUpdateFrame, syncUpdateRecord, hr]
  · intro c
    unfold syncStep
    rw [syncStepState_of_update t s row g ex hid hex]
    simp [syncClassify, hid, hex, bumpCount]

/-- Witness for `sync_update_preserves_local_fields`: the spec scenario —
external id 7 already active with price 500 and department "Finance"; a
re-sync with model "ThinkPad X1", status "In Use" keeps price, department,
tag and specs and counts one update. -/
theorem sync_update_preserves_local_fields_witness :
    wRow7b.id = some 7 ∧ findByGlpi wStoreFin 7 = some wAssetFin ∧
    (syncStepState "2024-01-01" wStoreFin wRow7b).assets.length
      = wStoreFin.assets.length ∧
    List.Forall₂ (syncUpdateFrame wRow7b 7 wAssetFin.purchase_date)
      wStoreFin.assets (syncStepState "2024-01-01" wStoreFin wRow7b).assets :=
  have T := sync_update_preserves_local_fields "2024-01-01" wStoreFin wRow7b 7
    wAssetFin (by decide) (by decide)
  ⟨by decide, by decide, T.1, T.2.2.2.1⟩

/-! ### Counter algebra of the sync fold -/

theorem cadd_zero (c : SyncCounts) : cadd c ⟨0, 0, 0⟩ = c := by
  simp [cadd]

theorem zero_cadd (c : SyncCounts) : cadd ⟨0, 0, 0⟩ c = c := by
  simp [cadd]

theorem cadd_assoc (a b d : SyncCounts) : cadd (cadd a b) d = cadd a (cadd b d) := by
  simp [cadd, Nat.add_assoc]

theorem bumpCount_eq (c : SyncCounts) (k : SyncKind) :
    bumpCount c k = cadd c (bumpCount ⟨0, 0, 0⟩ k) := by
  cases k <;> simp [bumpCount, cadd]

theorem sync_fold_fst (t : String) :
    ∀ (b : List RemoteRow) (s : Store) (c : SyncCounts),
      (b.foldl (syncStep t) (s, c)).1 = syncFoldState t s b := by
  intro b
  induction b with
  | nil => intro s c; rfl
  | cons r rest ih =>
    intro s c
    rw [List.foldl_cons]
    show (rest.foldl (syncStep t) (syncStepState t s r, _)).1 = _
    rw [ih]
    simp [syncFoldState]

theorem sync_fold_snd (t : String) :
    ∀ (b : List RemoteRow) (s : Store) (c : SyncCounts),
      (b.foldl (syncStep t) (s, c)).2 = cadd c (sync_glpi_data t s b).2 := by
  intro b
  induction b with
  | nil => intro s c; exact (cadd_zero c).symm
  | cons r rest ih =>
    intro s c
    rw [List.foldl_cons]
    show (rest.foldl (syncStep t) (syncStepState t s r, bumpCount c (syncClassify s r))).2 = _
    rw [ih]
    have hrhs : (sync_glpi_data t s (r :: rest)).2
        = cadd (bumpCount ⟨0, 0, 0⟩ (syncClassify s r))
            (sync_glpi_data t (syncStepState t s r) rest).2 := by
      unfold sync_glpi_data
      rw [List.foldl_cons]
      show (rest.foldl (syncStep t)
          (syncStepState t s r, bumpCount ⟨0, 0, 0⟩ (syncClassify s r))).2 = _
      rw [ih]
      rfl
    rw [hrhs, bumpCount_eq, cadd_assoc]

theorem sync_counts_partition (t : String) :
    ∀ (b : List RemoteRow) (s : Store),
      (sync_glpi_data t s b).2.inserts + (sync_glpi_data t s b).2.updates
        + (sync_glpi_data t s b).2.errors
        + b.countP (fun r => r.id.isNone) = b.length := by
  intro b
  induction b with
  | nil => intro s; simp [sync_glpi_data]
  | cons r rest ih =>
    intro s
    have hsnd : (sync_glpi_data t s (r :: rest)).2
        = cadd (bumpCount ⟨0, 0, 0⟩ (syncClassify s r))
            (sync_glpi_data t (syncStepState t s r) rest).2 := by
      unfold sync_glpi_data
      rw [List.foldl_cons]
      show (rest.foldl (syncStep t)
          (syncStepState t s r, bumpCount ⟨0, 0, 0⟩ (syncClassify s r))).2 = _
      rw [sync_fold_snd]
      rfl
    rw [hsnd]
    have hih := ih (syncStepState t s r)
    rw [List.countP_cons, List.length_cons]
    cases hid : r.id with
    | none =>
      have hk : syncClassify s r = .skip := by simp [syncClassify, hid]
      rw [hk]
      have hb : bumpCount (⟨0, 0, 0⟩ : SyncCounts) .skip = ⟨0, 0, 0⟩ := rfl
      rw [hb, zero_cadd, if_pos (show ((none : Option Int).isNone = true) from rfl)]
      omega
    | some g =>
      rw [if_neg (show ¬ ((some g : Option Int).isNone = true) by simp)]
      cases hfg : findByGlpi s g with
      | none =>
        have hk : syncClassify s r = .ins := by
          simp only [syncClassify, hid, hfg]
        rw [hk]
        have hb : cadd (bumpCount (⟨0, 0, 0⟩ : SyncCounts) .ins)
            (sync_glpi_data t (syncStepState t s r) rest).2
            = ⟨1 + (sync_glpi_data t (syncStepState t s r) rest).2.inserts,
               (sync_glpi_data t (syncStepState t s r) rest).2.updates,
               (sync_glpi_data t (syncStepState t s r) rest).2.errors⟩ := by
          simp [bumpCount, cadd]
        rw [hb]
        simp only
        omega
      | some a =>
        have hk : syncClassify s r = .upd := by
          simp only [syncClassify, hid, hfg]
        rw [hk]
        have hb : cadd (bumpCount (⟨0, 0, 0⟩ : SyncCounts) .upd)
            (sync_glpi_data t (syncStepState t s r) rest).2
            = ⟨(sync_glpi_data t (syncStepState t s r) rest).2.inserts,
               1 + (sync_glpi_data t (syncStepState t s r) rest).2.updates,
               (sync_glpi_data t (syncStepState t s r) rest).2.errors⟩ := by
          simp [bumpCount, cadd]
        rw [hb]
        simp only
        omega

/-- C5: synchronization never aborts mid-batch and returns exactly the
`(inserts, updates, errors)` triple. Splitting the batch anywhere, the
records after the split are processed from the state the earlier records
left behind and the counters add up componentwise — so whatever one record
does (including counting an error), the rest of the batch is still
processed. Moreover every record of the batch is accounted for exactly once
in the returned triple: inserts + updates + errors + (soft skips of records
with no parsable external identifier) equals the batch length. -/
theorem sync_no_abort_returns_triple (t : String) (s : Store) :
    (∀ b1 b2, sync_glpi_data t s (b1 ++ b2)
        = ((sync_glpi_data t (sync_glpi_data t s b1).1 b2).1,
           cadd (sync_glpi_data t s b1).2
             (sync_glpi_data t (sync_glpi_data t s b1).1 b2).2)) ∧
    (∀ b, (sync_glpi_data t s b).2.inserts + (sync_glpi_data t s b).2.updates
        + (sync_glpi_data t s b).2.errors
        + b.countP (fun r => r.id.isNone) = b.length) := by
  constructor
  · intro b1 b2
    show (b1 ++ b2).foldl (syncStep t) (s, ⟨0, 0, 0⟩) = _
    rw [List.foldl_append]
    have hfst := sync_fold_fst t b2 (b1.foldl (syncStep t) (s, ⟨0, 0, 0⟩)).1
      (b1.foldl (syncStep t) (s, ⟨0, 0, 0⟩)).2
    have hsnd := sync_fold_snd t b2 (b1.foldl (syncStep t) (s, ⟨0, 0, 0⟩)).1
      (b1.foldl (syncStep t) (s, ⟨0, 0, 0⟩)).2
    have hfst2 := sync_fold_fst t b2 (sync_glpi_data t s b1).1 (⟨0, 0, 0⟩ : SyncCounts)
    exact Prod.ext (hfst.trans hfst2.symm) hsnd
  · intro b
    exact sync_counts_partition t b s

/-! ### Idempotence of the sync step -/

theorem pyOrStr_absorb (p x : Option String) :
    pyOrStr p (pyOrStr p x) = pyOrStr p x := by
  match p with
  | none => rfl
  | some v =>
    by_cases hv : v = "" <;> simp [pyOrStr, hv]

theorem pyOrStr_self (p : Option String) : pyOrStr p p = p := by
  match p with
  | none => rfl
  | some v =>
    by_cases hv : v = "" <;> simp [pyOrStr, hv]

theorem findByGlpi_some_glpi (s : Store) (g : Int) (ex : AssetRecord)
    (hex : findByGlpi s g = some ex) : ex.glpi_id = some g := by
  have h := List.find?_some hex
  simpa using h

theorem syncUpdateRecord_absorb (row : RemoteRow) (g : Int)
    (fb : Option String) (r : AssetRecord) :
    syncUpdateRecord row g (pyOrStr (pDate row) fb)
        (syncUpdateRecord row g fb r)
      = syncUpdateRecord row g fb r := by
  by_cases hr : r.glpi_id = some g
  · simp [syncUpdateRecord, hr, pyOrStr_absorb]
  · simp [syncUpdateRecord, hr]

theorem syncUpdateRecord_fix_insert (row : RemoteRow) (g : Int)
    (t : String) (n : Nat) :
    syncUpdateRecord row g (pDate row) (syncInsertRecord row g t n)
      = syncInsertRecord row g t n := by
  simp [syncUpdateRecord, syncInsertRecord, pyOrStr_self]

theorem syncStepState_idem (t : String) (s : Store) (row : RemoteRow) :
    syncStepState t (syncStepState t s row) row = syncStepState t s row := by
  match hid : row.id with
  | none => rw [syncStepState_of_none t s row hid,
                syncStepState_of_none t _ row hid]
  | some g =>
    match hex : findByGlpi s g with
    | some ex =>
      rw [syncStepState_of_update t s row g ex hid hex]
      have hglpi := findByGlpi_some_glpi s g ex hex
      have hfind2 : findByGlpi
          { s with assets := s.assets.map (syncUpdateRecord row g ex.purchase_date) } g
          = some (syncUpdateRecord row g ex.purchase_date ex) := by
        rw [findByGlpi_map s _ (fun r => syncUpdateRecord_glpi row g ex.purchase_date r) g,
          hex]
        rfl
      rw [syncStepState_of_update t _ row g _ hid hfind2]
      have hpd : (syncUpdateRecord row g ex.purchase_date ex).purchase_date
          = pyOrStr (pDate row) ex.purchase_date := by
        simp [syncUpdateRecord, hglpi]
      simp only [hpd, List.map_map]
      congr 1
      apply List.map_congr_left
      intro r _
      exact syncUpdateRecord_absorb row g ex.purchase_date r
    | none =>
      rw [syncStepState_of_insert t s row g hid hex]
      have hw : (syncInsertRecord row g t s.next_id).glpi_id = some g := rfl
      have hfind2 : findByGlpi
          { s with
            assets := s.assets ++ [syncInsertRecord row g t s.next_id]
            next_id := s.next_id + 1 } g
          = some (syncInsertRecord row g t s.next_id) := by
        unfold findByGlpi at *
        simp only [List.find?_append, hex, Option.none_or]
        simp [syncInsertRecord]
      rw [syncStepState_of_update t _ row g _ hid hfind2]
      have hpd : (syncInsertRecord row g t s.next_id).purchase_date
          = pDate row := rfl
      simp only [hpd, List.map_append, List.map_cons, List.map_nil]
      have hl : s.assets.map (syncUpdateRecord row g (pDate row)) = s.assets := by
        have hcg : s.assets.map (syncUpdateRecord row g (pDate row))
            = s.assets.map (fun r => r) := by
          apply List.map_congr_left
          intro r hr
          have hnr : ¬ r.glpi_id = some g := by
            have := List.find?_eq_none.mp hex r hr
            simpa using this
          simp [syncUpdateRecord, hnr]
        rw [hcg, List.map_id']
      rw [hl, syncUpdateRecord_fix_insert]

/-! ### Commutation of sync steps on distinct external identifiers -/

theorem syncUpdateRecord_comm (rowg rowx : RemoteRow) (g h : Int)
    (fbg fbh : Option String) (hne : ¬ g = h) (r : AssetRecord) :
    syncUpdateRecord rowg g fbg (syncUpdateRecord rowx h fbh r)
      = syncUpdateRecord rowx h fbh (syncUpdateRecord rowg g fbg r) := by
  have hne2 : ¬ h = g := fun e => hne e.symm
  by_cases hg : r.glpi_id = some g
  · have hh : ¬ r.glpi_id = some h := by
      rw [hg]
      intro e
      exact hne (Option.some.inj e)
    simp [syncUpdateRecord, hg, hh, hne, hne2]
  · by_cases hh : r.glpi_id = some h
    · simp [syncUpdateRecord, hg, hh, hne, hne2]
    · simp [syncUpdateRecord, hg, hh, hne, hne2]

theorem syncStepState_comm (t : String) (v : Store) (row x : RemoteRow)
    (g : Int) (hid : row.id = some g)
    (hpres : (findByGlpi v g).isSome = true)
    (hx : ∀ h, x.id = some h → ¬ h = g) :
    syncStepState t (syncStepState t v x) row
      = syncStepState t (syncStepState t v row) x := by
  obtain ⟨ex, hex⟩ : ∃ ex, findByGlpi v g = some ex := by
    cases hfe : findByGlpi v g with
    | none => rw [hfe] at hpres; simp at hpres
    | some a => exact ⟨a, rfl⟩
  have hexg := findByGlpi_some_glpi v g ex hex
  match hxid : x.id with
  | none =>
    rw [syncStepState_of_none t v x hxid, syncStepState_of_none t _ x hxid]
  | some h =>
    have hne : ¬ h = g := hx h hxid
    have hsome_ne : ¬ ex.glpi_id = some h := by
      rw [hexg]
      intro e
      exact hne (Option.some.inj e).symm
    match hfh : findByGlpi v h with
    | some exh =>
      have hexh := findByGlpi_some_glpi v h exh hfh
      have hexh_ne : ¬ exh.glpi_id = some g := by
        rw [hexh]
        intro e
        exact hne (Option.some.inj e)
      rw [syncStepState_of_update t v x h exh hxid hfh]
      have hfg1 : findByGlpi
          { v with assets := v.assets.map (syncUpdateRecord x h exh.purchase_date) } g
          = some (syncUpdateRecord x h exh.purchase_date ex) := by
        rw [findByGlpi_map v _ (fun r => syncUpdateRecord_glpi x h exh.purchase_date r) g,
          hex]
        rfl
      have hfix : syncUpdateRecord x h exh.purchase_date ex = ex := by
        simp [syncUpdateRecord, hsome_ne]
      rw [hfix] at hfg1
      rw [syncStepState_of_update t _ row g ex hid hfg1]
      rw [syncStepState_of_update t v row g ex hid hex]
      have hfh1 : findByGlpi
          { v with assets := v.assets.map (syncUpdateRecord row g ex.purchase_date) } h
          = some (syncUpdateRecord row g ex.purchase_date exh) := by
        rw [findByGlpi_map v _ (fun r => syncUpdateRecord_glpi row g ex.purchase_date r) h,
          hfh]
        rfl
      have hfix2 : syncUpdateRecord row g ex.purchase_date exh = exh := by
        simp [syncUpdateRecord, hexh_ne]
      rw [hfix2] at hfh1
      rw [syncStepState_of_update t _ x h exh hxid hfh1]
      simp only [List.map_map]
      congr 1
      apply List.map_congr_left
      intro r _
      simp only [Function.comp_apply]
      exact syncUpdateRecord_comm row x g h ex.purchase_date exh.purchase_date
        (fun e => hne e.symm) r
    | none =>
      rw [syncStepState_of_insert t v x h hxid hfh]
      have hfg1 : findByGlpi
          { v with
            assets := v.assets ++ [syncInsertRecord x h t v.next_id]
            next_id := v.next_id + 1 } g = some ex := by
        unfold findByGlpi at *
        simp only [List.find?_append, hex]
        rfl
      rw [syncStepState_of_update t _ row g ex hid hfg1]
      rw [syncStepState_of_update t v row g ex hid hex]
      have hfh1 : findByGlpi
          { v with assets := v.assets.map (syncUpdateRecord row g ex.purchase_date) } h
          = none := by
        rw [findByGlpi_map v _ (fun r => syncUpdateRecord_glpi row g ex.purchase_date r) h,
          hfh]
        rfl
      rw [syncStepState_of_insert t _ x h hxid hfh1]
      simp only [List.map_append, List.map_cons, List.map_nil]
      have hfgw : syncUpdateRecord row g ex.purchase_date
          (syncInsertRecord x h t v.next_id) = syncInsertRecord x h t v.next_id := by
        have hwne : ¬ (syncInsertRecord x h t v.next_id).glpi_id = some g := by
          intro e
          exact hne (Option.some.inj e)
        simp [syncUpdateRecord, hwne]
      rw [hfgw]

/-! ### Fold-level lemmas for idempotence -/

theorem syncFoldState_nil (t : String) (s : Store) :
    syncFoldState t s [] = s := rfl

theorem syncFoldState_cons (t : String) (s : Store) (r : RemoteRow)
    (b : List RemoteRow) :
    syncFoldState t s (r :: b) = syncFoldState t (syncStepState t s r) b := rfl

theorem findByGlpi_isSome_fold (t : String) :
    ∀ (b : List RemoteRow) (s : Store) (g : Int),
      (findByGlpi s g).isSome = true →
      (findByGlpi (syncFoldState t s b) g).isSome = true := by
  intro b
  induction b with
  | nil => intro s g h; exact h
  | cons r rest ih =>
    intro s g h
    rw [syncFoldState_cons]
    exact ih _ g (findByGlpi_isSome_stepState t s r g h)

theorem fold_presence_all (t : String) :
    ∀ (b : List RemoteRow) (s : Store) (x : RemoteRow), x ∈ b →
      ∀ g, x.id = some g →
      (findByGlpi (syncFoldState t s b) g).isSome = true := by
  intro b
  induction b with
  | nil => intro s x hx; cases hx
  | cons r rest ih =>
    intro s x hx g hxg
    rw [syncFoldState_cons]
    rcases List.mem_cons.mp hx with hxr | hxm
    · subst hxr
      exact findByGlpi_isSome_fold t rest (syncStepState t s x) g
        (findByGlpi_stepState_self t s x g hxg)
    · exact ih (syncStepState t s r) x hxm g hxg

theorem stepState_fold_comm (t : String) (row : RemoteRow) (g : Int)
    (hid : row.id = some g) :
    ∀ (b : List RemoteRow) (u : Store),
      (∀ x ∈ b, ∀ h, x.id = some h → ¬ h = g) →
      (findByGlpi u g).isSome = true →
      syncStepState t (syncFoldState t u b) row
        = syncFoldState t (syncStepState t u row) b := by
  intro b
  induction b with
  | nil => intro u _ _; rfl
  | cons x rest ih =>
    intro u hb hu
    have hx : ∀ h, x.id = some h → ¬ h = g :=
      fun h hh => hb x (List.mem_cons_self x rest) h hh
    have hrest : ∀ y ∈ rest, ∀ h, y.id = some h → ¬ h = g :=
      fun y hy h hh => hb y (List.mem_cons_of_mem x hy) h hh
    rw [syncFoldState_cons]
    rw [ih (syncStepState t u x) hrest (findByGlpi_isSome_stepState t u x g hu)]
    rw [syncStepState_comm t u row x g hid hu hx]
    rw [syncFoldState_cons]

theorem syncFoldState_idem (t : String) :
    ∀ (b : List RemoteRow) (s : Store),
      (b.filterMap RemoteRow.id).Nodup →
      syncFoldState t (syncFoldState t s b) b = syncFoldState t s b := by
  intro b
  induction b with
  | nil => intro s _; rfl
  | cons r rest ih =>
    intro s hnd
    cases hid : r.id with
    | none =>
      have hnd2 : (rest.filterMap RemoteRow.id).Nodup := by
        rwa [List.filterMap_cons, hid] at hnd
      rw [syncFoldState_cons, syncFoldState_cons,
        syncStepState_of_none t s r hid,
        syncStepState_of_none t _ r hid]
      exact ih s hnd2
    | some g =>
      have hnd' := hnd
      rw [List.filterMap_cons, hid] at hnd'
      have hg : g ∉ rest.filterMap RemoteRow.id := (List.nodup_cons.mp hnd').1
      have hnd2 : (rest.filterMap RemoteRow.id).Nodup := (List.nodup_cons.mp hnd').2
      have hnotin : ∀ x ∈ rest, ∀ h, x.id = some h → ¬ h = g := by
        intro x hx h hh he
        subst he
        exact hg (List.mem_filterMap.mpr ⟨x, hx, hh⟩)
      have hpres : (findByGlpi (syncStepState t s r) g).isSome = true :=
        findByGlpi_stepState_self t s r g hid
      rw [syncFoldState_cons, syncFoldState_cons]
      rw [stepState_fold_comm t r g hid rest (syncStepState t s r) hnotin hpres]
      rw [syncStepState_idem t s r]
      exact ih (syncStepState t s r) hnd2

theorem sync_snd_cons (t : String) (s : Store) (r : RemoteRow)
    (b : List RemoteRow) :
    (sync_glpi_data t s (r :: b)).2
      = cadd (bumpCount ⟨0, 0, 0⟩ (syncClassify s r))
          (sync_glpi_data t (syncStepState t s r) b).2 := by
  unfold sync_glpi_data
  rw [List.foldl_cons]
  show (b.foldl (syncStep t)
      (syncStepState t s r, bumpCount ⟨0, 0, 0⟩ (syncClassify s r))).2 = _
  rw [sync_fold_snd]
  rfl

theorem syncClassify_of_present (s : Store) (r : RemoteRow) (g : Int)
    (hid : r.id = some g) (hpres : (findByGlpi s g).isSome = true) :
    syncClassify s r = .upd := by
  cases hfe : findByGlpi s g with
  | none => rw [hfe] at hpres; simp at hpres
  | some a => simp only [syncClassify, hid, hfe]

theorem sync_counts_all_present (t : String) :
    ∀ (b : List RemoteRow) (s : Store),
      (∀ x ∈ b, ∀ g, x.id = some g → (findByGlpi s g).isSome = true) →
      (sync_glpi_data t s b).2 = ⟨0, (b.filterMap RemoteRow.id).length, 0⟩ := by
  intro b
  induction b with
  | nil => intro s _; rfl
  | cons r rest ih =>
    intro s hall
    have hall2 : ∀ x ∈ rest, ∀ g, x.id = some g →
        (findByGlpi (syncStepState t s r) g).isSome = true := by
      intro x hx g hxg
      exact findByGlpi_isSome_stepState t s r g
        (hall x (List.mem_cons_of_mem r hx) g hxg)
    rw [sync_snd_cons, ih (syncStepState t s r) hall2]
    cases hid : r.id with
    | none =>
      have hk : syncClassify s r = .skip := by simp [syncClassify, hid]
      rw [hk, List.filterMap_cons, hid]
      have hb : bumpCount (⟨0, 0, 0⟩ : SyncCounts) .skip = ⟨0, 0, 0⟩ := rfl
      rw [hb, zero_cadd]
    | some g =>
      have hk : syncClassify s r = .upd :=
        syncClassify_of_present s r g hid
          (hall r (List.mem_cons_self r rest) g hid)
      rw [hk, List.filterMap_cons, hid]
      show cadd ⟨0, 1, 0⟩ _ = _
      simp only [cadd, List.length_cons]
      congr 1
      omega

/-- C2: syncing the same batch twice is idempotent, provided the parsable
external identifiers of the batch are distinct (as they are for a batch
fetched from the remote system, where the identifier is the primary key).
The second run leaves the store exactly as the first run left it, performs
zero inserts and zero errors, counts one update per identifier-bearing
record, and in particular changes no row and adds no row. -/
theorem sync_idempotent (t : String) (s : Store) (b : List RemoteRow)
    (hnd : (b.filterMap RemoteRow.id).Nodup) :
    (sync_glpi_data t (sync_glpi_data t s b).1 b).1 = (sync_glpi_data t s b).1 ∧
    (sync_glpi_data t (sync_glpi_data t s b).1 b).2
      = ⟨0, (b.filterMap RemoteRow.id).length, 0⟩ ∧
    (sync_glpi_data t (sync_glpi_data t s b).1 b).1.assets.length
      = (sync_glpi_data t s b).1.assets.length := by
  have hfst : ∀ s' : Store, (sync_glpi_data t s' b).1 = syncFoldState t s' b :=
    fun s' => sync_fold_fst t b s' ⟨0, 0, 0⟩
  have hstate : (sync_glpi_data t (sync_glpi_data t s b).1 b).1
      = (sync_glpi_data t s b).1 := by
    rw [hfst, hfst, syncFoldState_idem t b s hnd]
  refine ⟨hstate, ?_, by rw [hstate]⟩
  apply sync_counts_all_present
  intro x hx g hxg
  rw [hfst]
  exact fold_presence_all t b s x hx g hxg

/-- Witness for `sync_idempotent`: a two-record batch with distinct ids 7
and 8 against the empty store. -/
theorem sync_idempotent_witness :
    (([wRow7, { baseRow with id := some 8 }].filterMap RemoteRow.id).Nodup) ∧
    ((sync_glpi_data "2024-01-01"
        (sync_glpi_data "2024-01-01" emptyStore
          [wRow7, { baseRow with id := some 8 }]).1
        [wRow7, { baseRow with id := some 8 }]).1
      = (sync_glpi_data "2024-01-01" emptyStore
          [wRow7, { baseRow with id := some 8 }]).1 ∧
    (sync_glpi_data "2024-01-01"
        (sync_glpi_data "2024-01-01" emptyStore
          [wRow7, { baseRow with id := some 8 }]).1
        [wRow7, { baseRow with id := some 8 }]).2
      = ⟨0, ([wRow7, { baseRow with id := some 8 }].filterMap RemoteRow.id).length, 0⟩ ∧
    (sync_glpi_data "2024-01-01"
        (sync_glpi_data "2024-01-01" emptyStore
          [wRow7, { baseRow with id := some 8 }]).1
        [wRow7, { baseRow with id := some 8 }]).1.assets.length
      = (sync_glpi_data "2024-01-01" emptyStore
          [wRow7, { baseRow with id := some 8 }]).1.assets.length) :=
  ⟨by decide,
    sync_idempotent "2024-01-01" emptyStore
      [wRow7, { baseRow with id := some 8 }] (by decide)⟩

/-! ### add_asset: C10 and C6 -/

/-- C10: when the tag argument is absent or the empty string, `add_asset`
skips the duplicate-tag check entirely — it can never fail with the
tag-conflict message, and (all other checks passing) the insert succeeds no
matter how many untagged records the active store already holds, so
untagged records accumulate freely. -/
theorem untagged_insert_skips_tag_check (a : AddInput) (today : String)
    (s : Store) (hfalsy : strTruthy a.tag = false) :
    (¬ (add_asset a today s).1.2 = "Asset Tag already exists.") ∧
    (modelFalsy a.model = false → ¬ a.price < 0 →
      imgTooLarge a.img_size = false → glpiConflict a.glpi_id s = false →
      add_asset a today s
        = ((true, "Success"),
           { s with
             assets := s.assets ++ [addInsertRecord a today s.next_id]
             next_id := s.next_id + 1 })) := by
  constructor
  · unfold add_asset
    rw [hfalsy]
    split_ifs <;> simp_all
  · intro h1 h2 h3 h4
    unfold add_asset
    rw [hfalsy, h1, h3, h4]
    simp only [Bool.false_and, Bool.false_eq_true, if_false, if_neg h2]

/-- Witness for `untagged_insert_skips_tag_check`: adding a third untagged
record to a store that already holds two untagged records succeeds, and the
three untagged records coexist. -/
theorem untagged_insert_skips_tag_check_witness :
    strTruthy (baseAdd.tag) = false ∧
    add_asset baseAdd "2024-01-01"
        ⟨[baseAsset, { baseAsset with rid := 2 }], [], 3⟩
      = ((true, "Success"),
         { (⟨[baseAsset, { baseAsset with rid := 2 }], [], 3⟩ : Store) with
           assets := [baseAsset, { baseAsset with rid := 2 }]
             ++ [addInsertRecord baseAdd "2024-01-01" 3]
           next_id := 3 + 1 }) ∧
    ((add_asset baseAdd "2024-01-01"
        ⟨[baseAsset, { baseAsset with rid := 2 }], [], 3⟩).2.assets.countP
      (fun r => r.asset_tag = none)) = 3 :=
  ⟨by decide,
    (untagged_insert_skips_tag_check baseAdd "2024-01-01"
      ⟨[baseAsset, { baseAsset with rid := 2 }], [], 3⟩ (by decide)).2
      (by decide) (by decide) (by decide) (by decide),
    by decide⟩

/-- C6, counterexample: `add_asset` does not return the fresh internal
identifier. Two stores whose next AUTOINCREMENT values differ (1 and 42)
give the identical return value `(true, "Success")` for the same insert,
while assigning different internal identifiers — so the return value cannot
carry the identifier. -/
theorem add_asset_does_not_return_identifier :
    (add_asset { baseAdd with tag := some "T1" } "2024-01-01" ⟨[], [], 1⟩).1
      = (add_asset { baseAdd with tag := some "T1" } "2024-01-01" ⟨[], [], 42⟩).1 ∧
    ((add_asset { baseAdd with tag := some "T1" } "2024-01-01"
        ⟨[], [], 1⟩).2.assets.map (fun r => r.rid)) = [1] ∧
    ((add_asset { baseAdd with tag := some "T1" } "2024-01-01"
        ⟨[], [], 42⟩).2.assets.map (fun r => r.rid)) = [42] ∧
    (add_asset { baseAdd with tag := some "T1" } "2024-01-01" ⟨[], [], 1⟩).1
      = (true, "Success") := by
  decide

/-- C6, amended: `add_asset` fails on an empty model or a negative price
with the validation messages and an unchanged store; a duplicate tag on an
active record (with validation passing) fails with the tag-conflict message
and an unchanged store; a duplicate external identifier (tag check passing)
fails with the integrity-error message and an unchanged store; on success
it assigns the fresh internal identifier `next_id` (new to the table
whenever the AUTOINCREMENT invariant holds), stamps the creation date into
`last_audit_date`, and returns the success flag and message — not the
identifier. -/
theorem add_asset_spec_amended (a : AddInput) (today : String) (s : Store) :
    (modelFalsy a.model = true →
      add_asset a today s = ((false, "Model cannot be empty"), s)) ∧
    (modelFalsy a.model = false → a.price < 0 →
      add_asset a today s = ((false, "Price cannot be negative"), s)) ∧
    (modelFalsy a.model = false → ¬ a.price < 0 →
      imgTooLarge a.img_size = false →
      strTruthy a.tag = true →
      s.assets.any (fun r => r.asset_tag = a.tag) = true →
      add_asset a today s = ((false, "Asset Tag already exists."), s)) ∧
    (modelFalsy a.model = false → ¬ a.price < 0 →
      imgTooLarge a.img_size = false →
      (strTruthy a.tag && s.assets.any (fun r => r.asset_tag = a.tag)) = false →
      glpiConflict a.glpi_id s = true →
      add_asset a today s
        = ((false,
            "Database Integrity Error: UNIQUE constraint failed: assets.glpi_id"),
           s)) ∧
    (modelFalsy a.model = false → ¬ a.price < 0 →
      imgTooLarge a.img_size = false →
      (strTruthy a.tag && s.assets.any (fun r => r.asset_tag = a.tag)) = false →
      glpiConflict a.glpi_id s = false →
      add_asset a today s
        = ((true, "Success"),
           { s with
             assets := s.assets ++ [addInsertRecord a today s.next_id]
             next_id := s.next_id + 1 }) ∧
      (addInsertRecord a today s.next_id).rid = s.next_id ∧
      (addInsertRecord a today s.next_id).last_audit_date = some today ∧
      ((∀ r ∈ s.assets, r.rid < s.next_id) →
        ∀ r ∈ s.assets, ¬ r.rid = (addInsertRecord a today s.next_id).rid)) := by
  refine ⟨?_, ?_, ?_, ?_, ?_⟩
  · intro h1
    unfold add_asset
    rw [h1]
    simp
  · intro h1 h2
    unfold add_asset
    rw [h1]
    simp only [Bool.false_eq_true, if_false, if_pos h2]
  · intro h1 h2 h3 h4 h5
    unfold add_asset
    rw [h1, h3, h4, h5]
    simp only [Bool.false_eq_true, if_false, if_neg h2, Bool.true_and, if_pos]
  · intro h1 h2 h3 h4 h5
    unfold add_asset
    rw [h1, h3, h4, h5]
    simp only [Bool.false_eq_true, if_false, if_neg h2, if_pos]
  · intro h1 h2 h3 h4 h5
    refine ⟨?_, rfl, rfl, ?_⟩
    · unfold add_asset
      rw [h1, h3, h4, h5]
      simp only [Bool.false_eq_true, if_false, if_neg h2]
    · intro hinv r hr he
      have := hinv r hr
      rw [he] at this
      exact absurd this (by simp [addInsertRecord])

/-- Witness for `add_asset_spec_amended`: the success clause on the empty
store and the tag-conflict clause on the store that insert produced. -/
theorem add_asset_spec_amended_witness :
    (modelFalsy ({ baseAdd with tag := some "T1" } : AddInput).model = false ∧
     imgTooLarge ({ baseAdd with tag := some "T1" } : AddInput).img_size = false ∧
     glpiConflict ({ baseAdd with tag := some "T1" } : AddInput).glpi_id emptyStore
       = false) ∧
    add_asset { baseAdd with tag := some "T1" } "2024-01-01" emptyStore
      = ((true, "Success"),
         { emptyStore with
           assets := emptyStore.assets
             ++ [addInsertRecord { baseAdd with tag := some "T1" } "2024-01-01"
                   emptyStore.next_id]
           next_id := emptyStore.next_id + 1 }) ∧
    add_asset { baseAdd with tag := some "T1" } "2024-01-01"
        (add_asset { baseAdd with tag := some "T1" } "2024-01-01" emptyStore).2
      = ((false, "Asset Tag already exists."),
         (add_asset { baseAdd with tag := some "T1" } "2024-01-01" emptyStore).2) :=
  ⟨⟨by decide, by decide, by decide⟩,
    ((add_asset_spec_amended { baseAdd with tag := some "T1" } "2024-01-01"
        emptyStore).2.2.2.2 (by decide) (by decide) (by decide) (by decide)
        (by decide)).1,
    (add_asset_spec_amended { baseAdd with tag := some "T1" } "2024-01-01"
        (add_asset { baseAdd with tag := some "T1" } "2024-01-01"
          emptyStore).2).2.2.1 (by decide) (by decide) (by decide) (by decide)
        (by decide)⟩

/-! ### restore_asset: C7 -/

/-- C7, counterexample: restoring a record whose tag already exists on an
active record succeeds (it is not rejected with a conflict), leaving two
active records with the same tag — the tag-uniqueness clause of the claim
does not hold on this code path. -/
theorem restore_duplicate_tag_succeeds :
    (restore_asset "A"
        ⟨[{ baseAsset with asset_tag := some "A" }],
         [{ baseRecycle with asset_tag := some "A" }], 2⟩).1
      = (true, "Success") ∧
    ((restore_asset "A"
        ⟨[{ baseAsset with asset_tag := some "A" }],
         [{ baseRecycle with asset_tag := some "A" }], 2⟩).2.assets.countP
      (fun r => r.asset_tag = some "A")) = 2 := by
  decide

/-- C7, amended: restore fails with the not-found message when the tag is
absent from the archive, and with the integrity-error message when the
archived row would duplicate an external identifier in the active set —
both stores unchanged in either case. Otherwise it re-inserts the archived
row into the active store (positional fields only, fresh internal
identifier) and deletes every archive row carrying that tag. No tag
uniqueness is enforced on this path. -/
theorem restore_asset_spec_amended (tag : String) (s : Store) :
    (s.recycle_bin.find? (fun r => r.asset_tag = some tag) = none →
      restore_asset tag s = ((false, "Not found in bin"), s)) ∧
    (∀ row, s.recycle_bin.find? (fun r => r.asset_tag = some tag) = some row →
      glpiConflict row.glpi_id s = true →
      restore_asset tag s
        = ((false, "UNIQUE constraint failed: assets.glpi_id"), s)) ∧
    (∀ row, s.recycle_bin.find? (fun r => r.asset_tag = some tag) = some row →
      glpiConflict row.glpi_id s = false →
      restore_asset tag s
        = ((true, "Success"),
           { assets := s.assets ++ [restoreToAsset row s.next_id]
             recycle_bin := s.recycle_bin.filter
               (fun r => ¬ r.asset_tag = some tag)
             next_id := s.next_id + 1 })) := by
  refine ⟨?_, ?_, ?_⟩
  · intro h
    unfold restore_asset
    rw [h]
  · intro row hrow hc
    unfold restore_asset
    rw [hrow]
    simp only [hc, if_pos]
  · intro row hrow hc
    unfold restore_asset
    rw [hrow]
    simp only [hc, Bool.false_eq_true, if_false]

/-- Witness for `restore_asset_spec_amended`: the not-found case on an
empty archive, and a successful restore moving the only archived row back
to the active store. -/
theorem restore_asset_spec_amended_witness :
    (emptyStore.recycle_bin.find?
        (fun r => r.asset_tag = some "A") = none ∧
      restore_asset "A" emptyStore = ((false, "Not found in bin"), emptyStore)) ∧
    ((⟨[], [{ baseRecycle with asset_tag := some "A" }], 2⟩ :
        Store).recycle_bin.find? (fun r => r.asset_tag = some "A")
        = some { baseRecycle with asset_tag := some "A" } ∧
      glpiConflict ({ baseRecycle with asset_tag := some "A" } :
        RecycleRecord).glpi_id ⟨[], [{ baseRecycle with asset_tag := some "A" }], 2⟩
        = false ∧
      restore_asset "A" ⟨[], [{ baseRecycle with asset_tag := some "A" }], 2⟩
        = ((true, "Success"),
           { assets := [] ++ [restoreToAsset
               { baseRecycle with asset_tag := some "A" } 2]
             recycle_bin := ([{ baseRecycle with asset_tag := some "A" }] :
               List RecycleRecord).filter (fun r => ¬ r.asset_tag = some "A")
             next_id := 2 + 1 })) :=
  ⟨⟨by decide,
     (restore_asset_spec_amended "A" emptyStore).1 (by decide)⟩,
   ⟨by decide, by decide,
     (restore_asset_spec_amended "A"
        ⟨[], [{ baseRecycle with asset_tag := some "A" }], 2⟩).2.2
       { baseRecycle with asset_tag := some "A" } (by decide) (by decide)⟩⟩

/-! ### External-identifier uniqueness and immutability: C9 -/

theorem updByGlpiRecord_glpi (u : UpdInput) (g : Int) (r : AssetRecord) :
    (updByGlpiRecord u g r).glpi_id = r.glpi_id := by
  by_cases h : r.glpi_id = some g <;> simp [updByGlpiRecord, h]

theorem updByTagRecord_glpi (u : UpdInput) (ot : String) (r : AssetRecord) :
    (updByTagRecord u ot r).glpi_id = r.glpi_id
      ∨ (updByTagRecord u ot r).glpi_id = none := by
  by_cases h : r.asset_tag = some ot
  · right; simp [updByTagRecord, h]
  · left; simp [updByTagRecord, h]

theorem restoreToAsset_glpi (row : RecycleRecord) (n : Nat) :
    (restoreToAsset row n).glpi_id = row.glpi_id := rfl

theorem glpiPointwise_refl (l : List AssetRecord) : glpiPointwise l l :=
  ⟨Nat.le_refl _, fun _ _ _ => rfl⟩

theorem glpiPointwise_trans {a b c : List AssetRecord}
    (hab : glpiPointwise a b) (hbc : glpiPointwise b c) : glpiPointwise a c := by
  refine ⟨Nat.le_trans hab.1 hbc.1, fun i h h' => ?_⟩
  have hb : i < b.length := Nat.lt_of_lt_of_le h hab.1
  exact (hbc.2 i hb h').trans (hab.2 i h hb)

theorem glpiPointwise_append (l l2 : List AssetRecord) :
    glpiPointwise l (l ++ l2) := by
  refine ⟨by simp, fun i h h' => ?_⟩
  rw [List.get_eq_getElem, List.get_eq_getElem, List.getElem_append_left h]

theorem glpiPointwise_map (l : List AssetRecord) (f : AssetRecord → AssetRecord)
    (hf : ∀ r, (f r).glpi_id = r.glpi_id) : glpiPointwise l (l.map f) := by
  refine ⟨by simp, fun i h h' => ?_⟩
  rw [List.get_eq_getElem, List.get_eq_getElem, List.getElem_map]
  exact hf _

theorem pairwise_glpi_snoc (l : List AssetRecord) (x : AssetRecord)
    (h : l.Pairwise fun a b => a.glpi_id = none ∨ ¬ a.glpi_id = b.glpi_id)
    (hx : ∀ a ∈ l, a.glpi_id = none ∨ ¬ a.glpi_id = x.glpi_id) :
    (l ++ [x]).Pairwise fun a b => a.glpi_id = none ∨ ¬ a.glpi_id = b.glpi_id := by
  rw [List.pairwise_append]
  refine ⟨h, List.pairwise_singleton _ _, ?_⟩
  intro a ha b hb
  rw [List.mem_singleton.mp hb]
  exact hx a ha

theorem GlpiUnique_map (s : Store) (f : AssetRecord → AssetRecord)
    (hf : ∀ r, (f r).glpi_id = r.glpi_id ∨ (f r).glpi_id = none)
    (h : GlpiUnique s) : GlpiUnique { s with assets := s.assets.map f } := by
  show (s.assets.map f).Pairwise _
  rw [List.pairwise_map]
  refine List.Pairwise.imp ?_ h
  intro a b hab
  rcases hf b with hb | hb
  · rcases hf a with ha | ha
    · rw [ha, hb]; exact hab
    · exact Or.inl ha
  · cases hfa : (f a).glpi_id with
    | none => exact Or.inl rfl
    | some v =>
      refine Or.inr ?_
      rw [hb]
      simp

theorem glpiFresh_of_conflict_false (s : Store) (go : Option Int)
    (hc : glpiConflict go s = false) :
    ∀ a ∈ s.assets, a.glpi_id = none ∨ ¬ a.glpi_id = go := by
  intro a ha
  cases go with
  | none =>
    cases hga : a.glpi_id with
    | none => exact Or.inl rfl
    | some v =>
      refine Or.inr ?_
      simp
  | some g =>
    simp only [glpiConflict] at hc
    refine Or.inr ?_
    intro he
    have hany : s.assets.any (fun r => r.glpi_id = some g) = true :=
      List.any_eq_true.mpr ⟨a, ha, by simp [he]⟩
    rw [hany] at hc
    cases hc

theorem add_asset_state (a : AddInput) (today : String) (s : Store) :
    (add_asset a today s).2 = s ∨
    (glpiConflict a.glpi_id s = false ∧
      (add_asset a today s).2
        = { s with
            assets := s.assets ++ [addInsertRecord a today s.next_id]
            next_id := s.next_id + 1 }) := by
  unfold add_asset
  split_ifs with h1 h2 h3 h4 h5
  · exact Or.inl rfl
  · exact Or.inl rfl
  · exact Or.inl rfl
  · exact Or.inl rfl
  · exact Or.inl rfl
  · exact Or.inr ⟨by simpa using h5, rfl⟩

theorem update_asset_state (u : UpdInput) (s : Store) :
    (update_asset u s).2 = s ∨
    (∃ g, u.glpi_id = some g ∧
      (update_asset u s).2 = { s with assets := s.assets.map (updByGlpiRecord u g) }) ∨
    (∃ ot, u.glpi_id = none ∧
      (update_asset u s).2 = { s with assets := s.assets.map (updByTagRecord u ot) }) := by
  unfold update_asset
  split_ifs with h1 h2
  · exact Or.inl rfl
  · exact Or.inl rfl
  · cases hgo : u.glpi_id with
    | some g => exact Or.inr (Or.inl ⟨g, rfl, rfl⟩)
    | none =>
      cases hot : u.original_tag with
      | none => exact Or.inl rfl
      | some ot =>
        by_cases hot2 : ot = ""
        · subst hot2
          exact Or.inl rfl
        · refine Or.inr (Or.inr ⟨ot, rfl, ?_⟩)
          show (if ot = "" then
              ((false,
                "Cannot identify asset to update (Missing both GLPI ID and Original Tag)"),
               s)
            else
              ((true, "Success"),
               { s with assets := s.assets.map (updByTagRecord u ot) })).2
            = { s with assets := s.assets.map (updByTagRecord u ot) }
          rw [if_neg hot2]

theorem restore_asset_state (tag : String) (s : Store) :
    (restore_asset tag s).2 = s ∨
    (∃ row, s.recycle_bin.find? (fun r => r.asset_tag = some tag) = some row ∧
      glpiConflict row.glpi_id s = false ∧
      (restore_asset tag s).2
        = { assets := s.assets ++ [restoreToAsset row s.next_id]
            recycle_bin := s.recycle_bin.filter (fun r => ¬ r.asset_tag = some tag)
            next_id := s.next_id + 1 }) := by
  cases hf : s.recycle_bin.find? (fun r => r.asset_tag = some tag) with
  | none =>
    refine Or.inl ?_
    unfold restore_asset
    rw [hf]
  | some row =>
    have hred : restore_asset tag s
        = if glpiConflict row.glpi_id s then
            ((false, "UNIQUE constraint failed: assets.glpi_id"), s)
          else
            ((true, "Success"),
             { assets := s.assets ++ [restoreToAsset row s.next_id]
               recycle_bin := s.recycle_bin.filter
                 (fun r => ¬ r.asset_tag = some tag)
               next_id := s.next_id + 1 }) := by
      unfold restore_asset
      rw [hf]
    by_cases hc : glpiConflict row.glpi_id s = true
    · refine Or.inl ?_
      rw [hred, if_pos hc]
    · refine Or.inr ⟨row, rfl, by simpa using hc, ?_⟩
      rw [hred, if_neg hc]

theorem GlpiUnique_stepState (t : String) (s : Store) (row : RemoteRow)
    (h : GlpiUnique s) : GlpiUnique (syncStepState t s row) := by
  match hid : row.id with
  | none => rw [syncStepState_of_none t s row hid]; exact h
  | some g =>
    match hex : findByGlpi s g with
    | some ex =>
      rw [syncStepState_of_update t s row g ex hid hex]
      exact GlpiUnique_map s _
        (fun r => Or.inl (syncUpdateRecord_glpi row g ex.purchase_date r)) h
    | none =>
      rw [syncStepState_of_insert t s row g hid hex]
      show (s.assets ++ [syncInsertRecord row g t s.next_id]).Pairwise _
      apply pairwise_glpi_snoc _ _ h
      intro a ha
      refine Or.inr ?_
      have hna : ¬ a.glpi_id = some g := by
        have := List.find?_eq_none.mp hex a ha
        simpa using this
      exact hna

theorem GlpiUnique_fold (t : String) :
    ∀ (b : List RemoteRow) (s : Store), GlpiUnique s →
      GlpiUnique (syncFoldState t s b) := by
  intro b
  induction b with
  | nil => intro s h; exact h
  | cons r rest ih =>
    intro s h
    rw [syncFoldState_cons]
    exact ih _ (GlpiUnique_stepState t s r h)

theorem glpiPointwise_stepState (t : String) (s : Store) (row : RemoteRow) :
    glpiPointwise s.assets (syncStepState t s row).assets := by
  match hid : row.id with
  | none => rw [syncStepState_of_none t s row hid]; exact glpiPointwise_refl _
  | some g =>
    match hex : findByGlpi s g with
    | some ex =>
      rw [syncStepState_of_update t s row g ex hid hex]
      exact glpiPointwise_map _ _
        (fun r => syncUpdateRecord_glpi row g ex.purchase_date r)
    | none =>
      rw [syncStepState_of_insert t s row g hid hex]
      exact glpiPointwise_append _ _

theorem glpiPointwise_fold (t : String) :
    ∀ (b : List RemoteRow) (s : Store),
      glpiPointwise s.assets (syncFoldState t s b).assets := by
  intro b
  induction b with
  | nil => intro s; exact glpiPointwise_refl _
  | cons r rest ih =>
    intro s
    rw [syncFoldState_cons]
    exact glpiPointwise_trans (glpiPointwise_stepState t s r)
      (ih (syncStepState t s r))

/-- C9, counterexample: the legacy update path (keyed on the original tag,
taken exactly when no external identifier is passed) overwrites the stored
external identifier with NULL: a record holding external id 5 loses it
after `update_asset` by tag, so the identifier is not immutable once set. -/
theorem legacy_update_clears_glpi_id :
    (update_asset { baseUpd with original_tag := some "A" }
        ⟨[{ baseAsset with asset_tag := some "A", glpi_id := some 5 }], [], 2⟩).1
      = (true, "Success") ∧
    ((update_asset { baseUpd with original_tag := some "A" }
        ⟨[{ baseAsset with asset_tag := some "A", glpi_id := some 5 }], [], 2⟩).2.assets.map
      (fun r => r.glpi_id)) = [none] ∧
    ((⟨[{ baseAsset with asset_tag := some "A", glpi_id := some 5 }], [], 2⟩ :
      Store).assets.map (fun r => r.glpi_id)) = [some 5] := by
  decide

/-- C9, amended: every operation (insert, update, sync, restore) preserves
uniqueness of the external identifier across the active store; the
identifier of an existing row is never changed by insert, sync, restore, or
an update keyed on the external identifier — but the legacy update-by-tag
path does overwrite it (always with NULL), which is the one exception to
"never reassigned". -/
theorem glpi_unique_preserved_amended (s : Store) (hU : GlpiUnique s)
    (a : AddInput) (u : UpdInput) (t today : String) (b : List RemoteRow)
    (tag : String) :
    GlpiUnique (add_asset a today s).2 ∧
    GlpiUnique (update_asset u s).2 ∧
    GlpiUnique (sync_glpi_data t s b).1 ∧
    GlpiUnique (restore_asset tag s).2 ∧
    glpiPointwise s.assets (add_asset a today s).2.assets ∧
    glpiPointwise s.assets (sync_glpi_data t s b).1.assets ∧
    glpiPointwise s.assets (restore_asset tag s).2.assets ∧
    (∀ g, u.glpi_id = some g →
      glpiPointwise s.assets (update_asset u s).2.assets) := by
  refine ⟨?_, ?_, ?_, ?_, ?_, ?_, ?_, ?_⟩
  · rcases add_asset_state a today s with h | ⟨hc, h⟩
    · rw [h]; exact hU
    · rw [h]
      show (s.assets ++ [addInsertRecord a today s.next_id]).Pairwise _
      apply pairwise_glpi_snoc _ _ hU
      intro r hr
      exact glpiFresh_of_conflict_false s a.glpi_id hc r hr
  · rcases update_asset_state u s with h | ⟨g, _, h⟩ | ⟨ot, _, h⟩
    · rw [h]; exact hU
    · rw [h]
      exact GlpiUnique_map s _ (fun r => Or.inl (updByGlpiRecord_glpi u g r)) hU
    · rw [h]
      exact GlpiUnique_map s _ (fun r => updByTagRecord_glpi u ot r) hU
  · have hfst : (sync_glpi_data t s b).1 = syncFoldState t s b :=
      sync_fold_fst t b s ⟨0, 0, 0⟩
    rw [hfst]
    exact GlpiUnique_fold t b s hU
  · rcases restore_asset_state tag s with h | ⟨row, _, hc, h⟩
    · rw [h]; exact hU
    · rw [h]
      show (s.assets ++ [restoreToAsset row s.next_id]).Pairwise _
      apply pairwise_glpi_snoc _ _ hU
      intro r hr
      exact glpiFresh_of_conflict_false s row.glpi_id hc r hr
  · rcases add_asset_state a today s with h | ⟨_, h⟩
    · rw [h]; exact glpiPointwise_refl _
    · rw [h]; exact glpiPointwise_append _ _
  · have hfst : (sync_glpi_data t s b).1 = syncFoldState t s b :=
      sync_fold_fst t b s ⟨0, 0, 0⟩
    rw [hfst]
    exact glpiPointwise_fold t b s
  · rcases restore_asset_state tag s with h | ⟨row, _, _, h⟩
    · rw [h]; exact glpiPointwise_refl _
    · rw [h]; exact glpiPointwise_append _ _
  · intro g hg
    rcases update_asset_state u s with h | ⟨g2, _, h⟩ | ⟨ot, hgo, h⟩
    · rw [h]; exact glpiPointwise_refl _
    · rw [h]; exact glpiPointwise_map _ _ (fun r => updByGlpiRecord_glpi u g2 r)
    · rw [hg] at hgo; cases hgo

/-- Witness for `glpi_unique_preserved_amended` on a one-record store with
external id 7: uniqueness survives an insert and a re-sync, and the re-sync
keeps every row's external identifier. -/
theorem glpi_unique_preserved_amended_witness :
    GlpiUnique wStoreFin ∧
    GlpiUnique (add_asset baseAdd "2024-01-01" wStoreFin).2 ∧
    GlpiUnique (sync_glpi_data "2024-01-01" wStoreFin [wRow7b]).1 ∧
    glpiPointwise wStoreFin.assets
      (sync_glpi_data "2024-01-01" wStoreFin [wRow7b]).1.assets :=
  have hU : GlpiUnique wStoreFin := List.pairwise_singleton _ _
  have T := glpi_unique_preserved_amended wStoreFin hU baseAdd baseUpd
    "2024-01-01" "2024-01-01" [wRow7b] "A"
  ⟨hU, T.1, T.2.2.1, T.2.2.2.2.2.1⟩

end Inventory
